import Mathlib

/-!
# A verification development for the rustls connection core

This file gives a shallow embedding, in Lean 4, of the parts of the rustls
source tree relevant to the cipher-suite registry (`src/suites.rs`), the
configuration builder (`src/builder.rs`, `src/client/builder.rs`), the
supported-version table (`src/versions.rs`) and the connection driver
(`src/conn.rs`), together with theorems about the embedded operations.

Machine bytes are modelled as `Nat`; fixed-size byte arrays (`[u8; 32]`)
are modelled as `List Nat` with explicit length facts where they matter.
Fallible operations return `Option`/`Except`.  Collaborator crates that are
not part of the analysed sources (`ring`, `crate::msgs`, the record layer,
the deframer, the handshake joiner, the PRF implementation) are modelled
from the specification and marked as such in their doc comments.
-/

/-! ## Enumerations from `crate::msgs::enums`

Modelled from the spec: the `msgs` module is not among the analysed
sources; the enumerations below carry exactly the variants that the
analysed code mentions. -/

/-- TLS record content types (content-type byte of a record). -/
inductive ContentType where
  | changeCipherSpec
  | alert
  | handshake
  | applicationData
deriving DecidableEq, Repr

/-- TLS protocol versions supported by this library. -/
inductive ProtocolVersion where
  | TLSv1_2
  | TLSv1_3
deriving DecidableEq, Repr

/-- Alert levels (warning/fatal, plus an unknown byte). -/
inductive AlertLevel where
  | warning
  | fatal
  | unknownLevel (byte : Nat)
deriving DecidableEq, Repr

/-- Alert descriptions used by the analysed code. -/
inductive AlertDescription where
  | closeNotify
  | userCanceled
  | decodeError
  | illegalParameter
  | unexpectedMessage
  | recordOverflow
  | noRenegotiation
  | handshakeFailure
deriving DecidableEq, Repr

/-- The TLS enumeration identifying a cipher suite (`CipherSuite` in
`crate::msgs::enums`), restricted to the suites the library enumerates. -/
inductive CipherSuite where
  | TLS13_AES_128_GCM_SHA256
  | TLS13_AES_256_GCM_SHA384
  | TLS13_CHACHA20_POLY1305_SHA256
  | TLS_ECDHE_ECDSA_WITH_AES_128_GCM_SHA256
  | TLS_ECDHE_ECDSA_WITH_AES_256_GCM_SHA384
  | TLS_ECDHE_ECDSA_WITH_CHACHA20_POLY1305_SHA256
  | TLS_ECDHE_RSA_WITH_AES_128_GCM_SHA256
  | TLS_ECDHE_RSA_WITH_AES_256_GCM_SHA384
  | TLS_ECDHE_RSA_WITH_CHACHA20_POLY1305_SHA256
deriving DecidableEq, Repr

/-- Signature schemes named in the static scheme lists of `src/suites.rs`. -/
inductive SignatureScheme where
  | ED25519
  | ECDSA_NISTP521_SHA512
  | ECDSA_NISTP384_SHA384
  | ECDSA_NISTP256_SHA256
  | RSA_PSS_SHA512
  | RSA_PSS_SHA384
  | RSA_PSS_SHA256
  | RSA_PKCS1_SHA512
  | RSA_PKCS1_SHA384
  | RSA_PKCS1_SHA256
deriving DecidableEq, Repr

/-- Key-exchange algorithm of a TLS 1.2 suite (only ECDHE is enumerated). -/
inductive KeyExchangeAlgorithm where
  | ECDHE
deriving DecidableEq, Repr

/-! ## Algorithm handles from `ring`

Modelled from the spec: `ring` is an external cryptography crate; only the
identity of each algorithm and the standard mappings between them
(HKDF-SHAx uses HMAC-SHAx which digests with SHAx; AES-128 keys are 16
bytes, AES-256 and ChaCha20 keys 32 bytes) are represented. -/

/-- A digest algorithm handle (`ring::digest::Algorithm`). -/
inductive HashAlgorithm where
  | SHA256
  | SHA384
deriving DecidableEq, Repr

/-- An HMAC algorithm handle (`ring::hmac::Algorithm`). -/
inductive HmacAlgorithm where
  | HMAC_SHA256
  | HMAC_SHA384
deriving DecidableEq, Repr

/-- An HKDF algorithm handle (`ring::hkdf::Algorithm`). -/
inductive HkdfAlgorithm where
  | HKDF_SHA256
  | HKDF_SHA384
deriving DecidableEq, Repr

/-- An AEAD algorithm handle (`ring::aead::Algorithm`). -/
inductive AeadAlgorithm where
  | AES_128_GCM
  | AES_256_GCM
  | CHACHA20_POLY1305
deriving DecidableEq, Repr

/-- `ring::hmac::Algorithm::digest_algorithm`. -/
def HmacAlgorithm.digest_algorithm : HmacAlgorithm → HashAlgorithm
  | .HMAC_SHA256 => .SHA256
  | .HMAC_SHA384 => .SHA384

/-- `ring::hkdf::Algorithm::hmac_algorithm`. -/
def HkdfAlgorithm.hmac_algorithm : HkdfAlgorithm → HmacAlgorithm
  | .HKDF_SHA256 => .HMAC_SHA256
  | .HKDF_SHA384 => .HMAC_SHA384

/-- `ring::aead::Algorithm::key_len` in bytes. -/
def AeadAlgorithm.key_len : AeadAlgorithm → Nat
  | .AES_128_GCM => 16
  | .AES_256_GCM => 32
  | .CHACHA20_POLY1305 => 32

/-! ## The cipher-suite registry, from `src/suites.rs` -/

/-- Bulk symmetric encryption scheme used by a cipher suite
(`BulkAlgorithm` in `src/suites.rs`). -/
inductive BulkAlgorithm where
  | Aes128Gcm
  | Aes256Gcm
  | Chacha20Poly1305
deriving DecidableEq, Repr

/-- The TLS 1.2 AEAD implementation handle (`crate::cipher::Tls12AeadAlgorithm`
trait object; modelled by the two implementations the table names). -/
inductive Tls12AeadChoice where
  | AesGcm
  | ChaCha20Poly1305
deriving DecidableEq, Repr

/-- Common state for cipher suites (`CipherSuiteCommon` in `src/suites.rs`). -/
structure CipherSuiteCommon where
  suite : CipherSuite
  bulk : BulkAlgorithm
  aead_algorithm : AeadAlgorithm
deriving DecidableEq, Repr

/-- A TLS 1.3 cipher suite (`Tls13CipherSuite` in `src/suites.rs`). -/
structure Tls13CipherSuite where
  common : CipherSuiteCommon
  hkdf_algorithm : HkdfAlgorithm
deriving DecidableEq, Repr

/-- A TLS 1.2 cipher suite (`Tls12CipherSuite` in `src/suites.rs`). -/
structure Tls12CipherSuite where
  common : CipherSuiteCommon
  hmac_algorithm : HmacAlgorithm
  kx : KeyExchangeAlgorithm
  sign : List SignatureScheme
  fixed_iv_len : Nat
  explicit_nonce_len : Nat
  aead_alg : Tls12AeadChoice
deriving DecidableEq, Repr

/-- `Tls13CipherSuite::get_hash`. -/
def Tls13CipherSuite.get_hash (s : Tls13CipherSuite) : HashAlgorithm :=
  s.hkdf_algorithm.hmac_algorithm.digest_algorithm

/-- `Tls12CipherSuite::get_hash`. -/
def Tls12CipherSuite.get_hash (s : Tls12CipherSuite) : HashAlgorithm :=
  s.hmac_algorithm.digest_algorithm

/-- A cipher suite supported by rustls (`SupportedCipherSuite`). -/
inductive SupportedCipherSuite where
  | tls12 (inner : Tls12CipherSuite)
  | tls13 (inner : Tls13CipherSuite)
deriving DecidableEq, Repr

/-- `SupportedCipherSuite::get_hash`. -/
def SupportedCipherSuite.get_hash : SupportedCipherSuite → HashAlgorithm
  | .tls12 inner => inner.get_hash
  | .tls13 inner => inner.get_hash

/-- `SupportedCipherSuite::suite`: the cipher suite's identifier. -/
def SupportedCipherSuite.suite : SupportedCipherSuite → CipherSuite
  | .tls12 inner => inner.common.suite
  | .tls13 inner => inner.common.suite

/-- `SupportedCipherSuite::usable_for_version`. -/
def SupportedCipherSuite.usable_for_version : SupportedCipherSuite → ProtocolVersion → Bool
  | .tls12 _, version => version == ProtocolVersion.TLSv1_2
  | .tls13 _, version => version == ProtocolVersion.TLSv1_3

/-- `TLS12_ECDSA_SCHEMES` static list. -/
def TLS12_ECDSA_SCHEMES : List SignatureScheme :=
  [.ED25519, .ECDSA_NISTP521_SHA512, .ECDSA_NISTP384_SHA384, .ECDSA_NISTP256_SHA256]

/-- `TLS12_RSA_SCHEMES` static list. -/
def TLS12_RSA_SCHEMES : List SignatureScheme :=
  [.RSA_PSS_SHA512, .RSA_PSS_SHA384, .RSA_PSS_SHA256,
   .RSA_PKCS1_SHA512, .RSA_PKCS1_SHA384, .RSA_PKCS1_SHA256]

/-- The TLS1.2 ciphersuite TLS_ECDHE_ECDSA_WITH_CHACHA20_POLY1305_SHA256,
transcribed from `src/suites.rs` (note: the source table carries
`HMAC_SHA384` here). -/
def TLS_ECDHE_ECDSA_WITH_CHACHA20_POLY1305_SHA256 : Tls12CipherSuite :=
  { common := { suite := .TLS_ECDHE_ECDSA_WITH_CHACHA20_POLY1305_SHA256,
                bulk := .Chacha20Poly1305,
                aead_algorithm := .CHACHA20_POLY1305 },
    hmac_algorithm := .HMAC_SHA384,
    kx := .ECDHE,
    sign := TLS12_ECDSA_SCHEMES,
    fixed_iv_len := 12,
    explicit_nonce_len := 0,
    aead_alg := .ChaCha20Poly1305 }

/-- The TLS1.2 ciphersuite TLS_ECDHE_RSA_WITH_CHACHA20_POLY1305_SHA256. -/
def TLS_ECDHE_RSA_WITH_CHACHA20_POLY1305_SHA256 : Tls12CipherSuite :=
  { common := { suite := .TLS_ECDHE_RSA_WITH_CHACHA20_POLY1305_SHA256,
                bulk := .Chacha20Poly1305,
                aead_algorithm := .CHACHA20_POLY1305 },
    hmac_algorithm := .HMAC_SHA256,
    kx := .ECDHE,
    sign := TLS12_RSA_SCHEMES,
    fixed_iv_len := 12,
    explicit_nonce_len := 0,
    aead_alg := .ChaCha20Poly1305 }

/-- The TLS1.2 ciphersuite TLS_ECDHE_RSA_WITH_AES_128_GCM_SHA256. -/
def TLS_ECDHE_RSA_WITH_AES_128_GCM_SHA256 : Tls12CipherSuite :=
  { common := { suite := .TLS_ECDHE_RSA_WITH_AES_128_GCM_SHA256,
                bulk := .Aes128Gcm,
                aead_algorithm := .AES_128_GCM },
    hmac_algorithm := .HMAC_SHA256,
    kx := .ECDHE,
    sign := TLS12_RSA_SCHEMES,
    fixed_iv_len := 4,
    explicit_nonce_len := 8,
    aead_alg := .AesGcm }

/-- The TLS1.2 ciphersuite TLS_ECDHE_RSA_WITH_AES_256_GCM_SHA384. -/
def TLS_ECDHE_RSA_WITH_AES_256_GCM_SHA384 : Tls12CipherSuite :=
  { common := { suite := .TLS_ECDHE_RSA_WITH_AES_256_GCM_SHA384,
                bulk := .Aes256Gcm,
                aead_algorithm := .AES_256_GCM },
    hmac_algorithm := .HMAC_SHA384,
    kx := .ECDHE,
    sign := TLS12_RSA_SCHEMES,
    fixed_iv_len := 4,
    explicit_nonce_len := 8,
    aead_alg := .AesGcm }

/-- The TLS1.2 ciphersuite TLS_ECDHE_ECDSA_WITH_AES_128_GCM_SHA256. -/
def TLS_ECDHE_ECDSA_WITH_AES_128_GCM_SHA256 : Tls12CipherSuite :=
  { common := { suite := .TLS_ECDHE_ECDSA_WITH_AES_128_GCM_SHA256,
                bulk := .Aes128Gcm,
                aead_algorithm := .AES_128_GCM },
    hmac_algorithm := .HMAC_SHA256,
    kx := .ECDHE,
    sign := TLS12_ECDSA_SCHEMES,
    fixed_iv_len := 4,
    explicit_nonce_len := 8,
    aead_alg := .AesGcm }

/-- The TLS1.2 ciphersuite TLS_ECDHE_ECDSA_WITH_AES_256_GCM_SHA384. -/
def TLS_ECDHE_ECDSA_WITH_AES_256_GCM_SHA384 : Tls12CipherSuite :=
  { common := { suite := .TLS_ECDHE_ECDSA_WITH_AES_256_GCM_SHA384,
                bulk := .Aes256Gcm,
                aead_algorithm := .AES_256_GCM },
    hmac_algorithm := .HMAC_SHA384,
    kx := .ECDHE,
    sign := TLS12_ECDSA_SCHEMES,
    fixed_iv_len := 4,
    explicit_nonce_len := 8,
    aead_alg := .AesGcm }

/-- The TLS1.3 ciphersuite TLS_CHACHA20_POLY1305_SHA256. -/
def TLS13_CHACHA20_POLY1305_SHA256 : Tls13CipherSuite :=
  { common := { suite := .TLS13_CHACHA20_POLY1305_SHA256,
                bulk := .Chacha20Poly1305,
                aead_algorithm := .CHACHA20_POLY1305 },
    hkdf_algorithm := .HKDF_SHA256 }

/-- The TLS1.3 ciphersuite TLS_AES_256_GCM_SHA384. -/
def TLS13_AES_256_GCM_SHA384 : Tls13CipherSuite :=
  { common := { suite := .TLS13_AES_256_GCM_SHA384,
                bulk := .Aes256Gcm,
                aead_algorithm := .AES_256_GCM },
    hkdf_algorithm := .HKDF_SHA384 }

/-- The TLS1.3 ciphersuite TLS_AES_128_GCM_SHA256. -/
def TLS13_AES_128_GCM_SHA256 : Tls13CipherSuite :=
  { common := { suite := .TLS13_AES_128_GCM_SHA256,
                bulk := .Aes128Gcm,
                aead_algorithm := .AES_128_GCM },
    hkdf_algorithm := .HKDF_SHA256 }

/-- `ALL_CIPHER_SUITES`: the static table of every supported suite, in
table order. -/
def ALL_CIPHER_SUITES : List SupportedCipherSuite :=
  [ .tls13 TLS13_AES_256_GCM_SHA384,
    .tls13 TLS13_AES_128_GCM_SHA256,
    .tls13 TLS13_CHACHA20_POLY1305_SHA256,
    .tls12 TLS_ECDHE_ECDSA_WITH_AES_256_GCM_SHA384,
    .tls12 TLS_ECDHE_ECDSA_WITH_AES_128_GCM_SHA256,
    .tls12 TLS_ECDHE_ECDSA_WITH_CHACHA20_POLY1305_SHA256,
    .tls12 TLS_ECDHE_RSA_WITH_AES_256_GCM_SHA384,
    .tls12 TLS_ECDHE_RSA_WITH_AES_128_GCM_SHA256,
    .tls12 TLS_ECDHE_RSA_WITH_CHACHA20_POLY1305_SHA256 ]

/-- Modelled from the spec: the hash algorithm named by the final
`_SHAxxx` component of each enumerated suite identifier (the spec's
"HKDF/HMAC hash ... named in the suite's identifier"). -/
def hashOfSuiteName : CipherSuite → HashAlgorithm
  | .TLS13_AES_128_GCM_SHA256 => .SHA256
  | .TLS13_AES_256_GCM_SHA384 => .SHA384
  | .TLS13_CHACHA20_POLY1305_SHA256 => .SHA256
  | .TLS_ECDHE_ECDSA_WITH_AES_128_GCM_SHA256 => .SHA256
  | .TLS_ECDHE_ECDSA_WITH_AES_256_GCM_SHA384 => .SHA384
  | .TLS_ECDHE_ECDSA_WITH_CHACHA20_POLY1305_SHA256 => .SHA256
  | .TLS_ECDHE_RSA_WITH_AES_128_GCM_SHA256 => .SHA256
  | .TLS_ECDHE_RSA_WITH_AES_256_GCM_SHA384 => .SHA384
  | .TLS_ECDHE_RSA_WITH_CHACHA20_POLY1305_SHA256 => .SHA256

/-- `choose_ciphersuite_preferring_client`: walk the client list in order,
returning the first server entry whose id matches. -/
def choose_ciphersuite_preferring_client
    (client_suites : List CipherSuite) (server_suites : List SupportedCipherSuite) :
    Option SupportedCipherSuite :=
  match client_suites with
  | [] => none
  | client_suite :: rest =>
    match server_suites.find? (fun x => client_suite == x.suite) with
    | some selected => some selected
    | none => choose_ciphersuite_preferring_client rest server_suites

/-- `choose_ciphersuite_preferring_server`: walk the server list in order,
returning the first entry whose id the client offered. -/
def choose_ciphersuite_preferring_server
    (client_suites : List CipherSuite) (server_suites : List SupportedCipherSuite) :
    Option SupportedCipherSuite :=
  server_suites.find? (fun x => client_suites.contains x.suite)

/-! ## The error type, from `crate::error`

Modelled from the spec: `error.rs` is not among the analysed sources; the
variants below are those the analysed code constructs, with the payloads
the analysed code inspects (the field payloads of the two `Inappropriate*`
variants are not inspected by it and are omitted). -/

/-- The library error type (`rustls::Error`). -/
inductive Error where
  | corruptMessage
  | corruptMessagePayload (typ : ContentType)
  | peerMisbehavedError (reason : String)
  | alertReceived (description : AlertDescription)
  | peerSentOversizedRecord
  | decryptError
  | general (text : String)
  | badMaxFragmentSize
  | inappropriateMessage
  | inappropriateHandshakeMessage
deriving DecidableEq, Repr

/-! ## Supported versions, from `src/versions.rs` -/

/-- A TLS protocol version supported by rustls (`SupportedProtocolVersion`). -/
structure SupportedProtocolVersion where
  version : ProtocolVersion
deriving DecidableEq, Repr

/-- `TLS12` constant. -/
def TLS12 : SupportedProtocolVersion := { version := .TLSv1_2 }

/-- `TLS13` constant. -/
def TLS13 : SupportedProtocolVersion := { version := .TLSv1_3 }

/-- `ALL_VERSIONS` static table. -/
def ALL_VERSIONS : List SupportedProtocolVersion := [TLS13, TLS12]

/-! ## Key-exchange groups

Modelled from the spec: `kx.rs` is not among the analysed sources; a
supported group is represented by its named-group identity only. -/

/-- A named key-exchange group. -/
inductive NamedGroup where
  | X25519
  | secp256r1
  | secp384r1
deriving DecidableEq, Repr

/-- A key-exchange group supported by the library (`SupportedKxGroup`). -/
structure SupportedKxGroup where
  name : NamedGroup
deriving DecidableEq, Repr

/-- The X25519 group. -/
def X25519 : SupportedKxGroup := { name := .X25519 }

/-! ## The configuration builder, from `src/builder.rs` and
`src/client/builder.rs` -/

/-- A `ConfigBuilder` where the cipher suites and key-exchange groups are
known (`ConfigBuilderWithKxGroups` in `src/builder.rs`). -/
structure ConfigBuilderWithKxGroups where
  tls13_cipher_suites : List Tls13CipherSuite
  tls12_cipher_suites : List Tls12CipherSuite
  kx_groups : List SupportedKxGroup
deriving DecidableEq, Repr

/-- The builder stage produced by `for_client`
(`ClientConfigBuilder` in `src/client/builder.rs`). -/
structure ClientConfigBuilder where
  tls13_cipher_suites : List Tls13CipherSuite
  tls12_cipher_suites : List Tls12CipherSuite
  kx_groups : List SupportedKxGroup
deriving DecidableEq, Repr

/-- The builder stage produced by `for_server`
(`ServerConfigBuilder` in `src/server/builder.rs`, a source outside the
analysed set; its fields are those `for_server` fills in). -/
structure ServerConfigBuilder where
  tls13_cipher_suites : List Tls13CipherSuite
  tls12_cipher_suites : List Tls12CipherSuite
  kx_groups : List SupportedKxGroup
deriving DecidableEq, Repr

/-- `ConfigBuilderWithKxGroups::validate`. -/
def ConfigBuilderWithKxGroups.validate (c : ConfigBuilderWithKxGroups) : Except Error Unit :=
  if c.tls13_cipher_suites.isEmpty && c.tls12_cipher_suites.isEmpty then
    .error (.general "no usable cipher suites configured")
  else if c.kx_groups.isEmpty then
    .error (.general "no kx groups configured")
  else
    .ok ()

/-- `ConfigBuilderWithKxGroups::for_client`. -/
def ConfigBuilderWithKxGroups.for_client (c : ConfigBuilderWithKxGroups) :
    Except Error ClientConfigBuilder :=
  match c.validate with
  | .error e => .error e
  | .ok () =>
    .ok { tls13_cipher_suites := c.tls13_cipher_suites,
          tls12_cipher_suites := c.tls12_cipher_suites,
          kx_groups := c.kx_groups }

/-- `ConfigBuilderWithKxGroups::for_server`. -/
def ConfigBuilderWithKxGroups.for_server (c : ConfigBuilderWithKxGroups) :
    Except Error ServerConfigBuilder :=
  match c.validate with
  | .error e => .error e
  | .ok () =>
    .ok { tls13_cipher_suites := c.tls13_cipher_suites,
          tls12_cipher_suites := c.tls12_cipher_suites,
          kx_groups := c.kx_groups }

/-- All suites a builder configures, as `SupportedCipherSuite` values in
TLS 1.3-before-1.2 order. -/
def ConfigBuilderWithKxGroups.allConfiguredSuites (c : ConfigBuilderWithKxGroups) :
    List SupportedCipherSuite :=
  c.tls13_cipher_suites.map .tls13 ++ c.tls12_cipher_suites.map .tls12

/-- Whether some version of `versions` is usable with some configured
suite, the compatibility notion of the claimed validation rule (stated
with the source's `usable_for_version`). -/
def ConfigBuilderWithKxGroups.someCompatibleVersion (c : ConfigBuilderWithKxGroups)
    (versions : List SupportedProtocolVersion) : Bool :=
  versions.any fun v => c.allConfiguredSuites.any fun s => s.usable_for_version v.version

/-! ## Connection randoms and TLS 1.2 secrets, from `src/conn.rs` -/

/-- `ConnectionRandoms`: the two 32-byte nonces plus the side flag. -/
structure ConnectionRandoms where
  we_are_client : Bool
  client : List Nat
  server : List Nat
deriving DecidableEq, Repr

/-- `TLS12_DOWNGRADE_SENTINEL`: the fixed 8-byte downgrade sentinel. -/
def TLS12_DOWNGRADE_SENTINEL : List Nat := [0x44, 0x4f, 0x57, 0x4e, 0x47, 0x52, 0x44, 0x01]

/-- `ConnectionRandoms::set_tls12_downgrade_marker`: overwrite
`server[24..]` with the sentinel.  The source asserts `!we_are_client`;
the assertion failure is modelled as `none`. -/
def ConnectionRandoms.set_tls12_downgrade_marker (r : ConnectionRandoms) :
    Option ConnectionRandoms :=
  if r.we_are_client then none
  else some { r with server := r.server.take 24 ++ TLS12_DOWNGRADE_SENTINEL }

/-- `ConnectionRandoms::has_tls12_downgrade_marker`: compare
`server[24..]` with the sentinel.  The source asserts `we_are_client`;
the assertion failure is modelled as `none`. -/
def ConnectionRandoms.has_tls12_downgrade_marker (r : ConnectionRandoms) : Option Bool :=
  if r.we_are_client then some (r.server.drop 24 == TLS12_DOWNGRADE_SENTINEL) else none

/-- `join_randoms`: concatenation of two 32-byte arrays into a 64-byte
array (the `[u8; 32]` source types fix both lengths to 32, under which
the copy into a fresh `[u8; 64]` is exactly list append). -/
def join_randoms (first second : List Nat) : List Nat := first ++ second

/-- The type of the TLS 1.2 PRF, `crate::prf::prf`.  The implementation is
outside the analysed sources; the analysed code is parametric in it.
Arguments: HMAC algorithm, secret, label, seed, output length (the source
writes into a caller-sized output buffer). -/
def PrfFn : Type := HmacAlgorithm → List Nat → String → List Nat → Nat → List Nat

/-- `ConnectionSecrets`: TLS 1.2 per-connection keying material. -/
structure ConnectionSecrets where
  randoms : ConnectionRandoms
  suite : Tls12CipherSuite
  master_secret : List Nat
deriving DecidableEq, Repr

/-- `ConnectionSecrets::new`: derive the master secret from the premaster
secret with label "master secret" over client_random ‖ server_random. -/
def ConnectionSecrets.new (prf : PrfFn) (randoms : ConnectionRandoms)
    (suite : Tls12CipherSuite) (pms : List Nat) : ConnectionSecrets :=
  { randoms := randoms,
    suite := suite,
    master_secret :=
      prf suite.hmac_algorithm pms "master secret"
        (join_randoms randoms.client randoms.server) 48 }

/-- `ConnectionSecrets::new_ems`: derive the master secret with label
"extended master secret" over the handshake transcript hash. -/
def ConnectionSecrets.new_ems (prf : PrfFn) (randoms : ConnectionRandoms)
    (hs_hash : List Nat) (suite : Tls12CipherSuite) (pms : List Nat) : ConnectionSecrets :=
  { randoms := randoms,
    suite := suite,
    master_secret :=
      prf suite.hmac_algorithm pms "extended master secret" hs_hash 48 }

/-- The key block length demanded by `ConnectionSecrets::make_key_block`. -/
def ConnectionSecrets.key_block_len (s : ConnectionSecrets) : Nat :=
  (s.suite.common.aead_algorithm.key_len + s.suite.fixed_iv_len) * 2 + s.suite.explicit_nonce_len

/-- `ConnectionSecrets::make_key_block`: PRF with label "key expansion"
over server_random ‖ client_random. -/
def ConnectionSecrets.make_key_block (prf : PrfFn) (s : ConnectionSecrets) : List Nat :=
  prf s.suite.hmac_algorithm s.master_secret "key expansion"
    (join_randoms s.randoms.server s.randoms.client) s.key_block_len

/-! ## Messages and buffers for the connection driver

The deframer, handshake joiner, record layer, fragmenter and
`ChunkVecBuffer` live in modules outside the analysed sources
(`crate::msgs::deframer`, `crate::msgs::hsjoiner`, `crate::record_layer`,
`crate::vecbuf`).  They are modelled from the spec where a claim needs
their behaviour, and abstracted into explicit parameters where it does
not. -/

/-- An undecrypted record as produced by the deframer
(`OpaqueMessage` in `crate::msgs::message`). -/
structure OpaqueMessage where
  typ : ContentType
  version : ProtocolVersion
  payload : List Nat
deriving DecidableEq, Repr

/-- A fully parsed message (`Message` in `crate::msgs::message`); the
analysed control paths never inspect its payload, which is therefore kept
as raw bytes. -/
structure Message where
  typ : ContentType
  payload : List Nat
deriving DecidableEq, Repr

/-- The internal `MessageType` result of `ConnectionCommon::process_msg`. -/
inductive MessageType where
  | handshake
  | data (msg : Message)
deriving DecidableEq, Repr

/-- A parsed alert payload (`AlertMessagePayload` in `crate::msgs::alert`). -/
structure AlertMessagePayload where
  level : AlertLevel
  description : AlertDescription
deriving DecidableEq, Repr

/-- Modelled from the spec: an entry of the outgoing `sendable_tls`
queue.  Records queued by the alert-sending helpers keep their alert
level and description visible; all other records are opaque byte blobs
(the fragmenter and record layer that produce them are outside the
analysed sources). -/
inductive OutRecord where
  | alertRecord (level : AlertLevel) (description : AlertDescription)
  | rawRecord (bytes : List Nat)
deriving DecidableEq, Repr

/-- Modelled from the spec: the on-wire size of an outgoing queue entry
(an unencrypted alert record is 5 bytes of header plus a 2-byte body). -/
def OutRecord.size : OutRecord → Nat
  | .alertRecord _ _ => 7
  | .rawRecord bytes => bytes.length

/-- Total byte count of a list of chunks (`ChunkVecBuffer::len`). -/
def chunksLen (chunks : List (List Nat)) : Nat := (chunks.map List.length).sum

/-- Modelled from the spec: `ChunkVecBuffer::read` copies bytes from the
front chunks into a destination buffer of `bufLen` bytes, removing what
was copied; returns the number of bytes copied and the remaining chunks. -/
def ChunkVecBuffer.read : Nat → List (List Nat) → Nat × List (List Nat)
  | _, [] => (0, [])
  | bufLen, chunk :: rest =>
    if bufLen = 0 then (0, chunk :: rest)
    else if chunk.length ≤ bufLen then
      let r := ChunkVecBuffer.read (bufLen - chunk.length) rest
      (chunk.length + r.1, r.2)
    else (bufLen, chunk.drop bufLen :: rest)

/-! ## The connection state, from `src/conn.rs`

`CommonState` and the fields of `ConnectionCommon` that the analysed
claims exercise are flattened into `CoreState` / `ConnInner` /
`ConnState`.  `CoreState` holds exactly the state that the collaborator
operations outside the analysed sources (record-layer decryption, the
handshake joiner, the handshake state machine) may read and write; the
middlebox-CCS flag, the deframer and the cached error are kept outside
it because no such collaborator touches them. -/

/-- The connection state reachable from collaborator operations:
`CommonState` plus the `peer_eof` flag of `ConnectionCommon`. -/
structure CoreState where
  is_client : Bool
  negotiated_version : Option ProtocolVersion
  traffic : Bool
  sent_fatal_alert : Bool
  peer_eof : Bool
  is_decrypting : Bool
  received_plaintext : List (List Nat)
  sendable_plaintext : List (List Nat)
  sendable_tls : List OutRecord
deriving DecidableEq, Repr

/-- `CommonState::is_tls13`. -/
def CoreState.is_tls13 (c : CoreState) : Bool :=
  c.negotiated_version == some ProtocolVersion.TLSv1_3

/-- `CommonState::send_fatal_alert`: queue a fatal alert record and set
the `sent_fatal_alert` flag (the fragment/encrypt path that encodes the
record is outside the analysed sources and is modelled as queueing an
`OutRecord.alertRecord`). -/
def CoreState.send_fatal_alert (c : CoreState) (desc : AlertDescription) : CoreState :=
  { c with sendable_tls := c.sendable_tls ++ [.alertRecord .fatal desc],
           sent_fatal_alert := true }

/-- `ConnectionCommon` state minus the deframer and the cached error:
the middlebox-CCS flag plus the collaborator-reachable `CoreState`. -/
structure ConnInner where
  received_middlebox_ccs : Bool
  core : CoreState
deriving DecidableEq, Repr

/-- The full `ConnectionCommon` state: the inner state plus the message
deframer (its record FIFO, desync flag and pending-bytes flag) and the
cached error. -/
structure ConnState where
  inner : ConnInner
  frames : List OpaqueMessage
  desynced : Bool
  deframer_has_pending : Bool
  error : Option Error
deriving DecidableEq, Repr

/-- `ConnectionCommon::process_alert`. -/
def process_alert (c : CoreState) (alert : AlertMessagePayload) :
    CoreState × Except Error Unit :=
  let c := match alert.level with
    | .unknownLevel _ => c.send_fatal_alert .illegalParameter
    | _ => c
  if alert.description = .closeNotify then
    ({ c with peer_eof := true }, .ok ())
  else if alert.level = .warning then
    if c.is_tls13 && !(alert.description == .userCanceled) then
      (c.send_fatal_alert .decodeError, .error (.alertReceived alert.description))
    else
      (c, .ok ())
  else
    (c, .error (.alertReceived alert.description))

/-- `ConnectionCommon::process_msg`, parametric in `afterCcs`: the
decryption, handshake-joining, parsing and alert-dispatch path taken by
every record that the middlebox-CCS rule does not drop or reject (that
path leans on collaborators outside the analysed sources). -/
def process_msg
    (afterCcs : CoreState → OpaqueMessage → CoreState × Except Error (Option MessageType))
    (s : ConnInner) (msg : OpaqueMessage) : ConnInner × Except Error (Option MessageType) :=
  if msg.typ = .changeCipherSpec ∧ s.core.traffic = false ∧ s.core.is_tls13 = true then
    if s.received_middlebox_ccs then
      (s, .error (.peerMisbehavedError "illegal middlebox CCS received"))
    else
      ({ s with received_middlebox_ccs := true }, .ok none)
  else
    let r := afterCcs s.core msg
    ({ s with core := r.1 }, r.2)

/-- The collaborator operations of the record-processing loop that live
outside the analysed sources: the non-CCS path of `process_msg`, the
drain of joined handshake messages (`process_new_handshake_messages`
body) and the dispatch of a data message to the handshake state machine
(`process_main_protocol`). -/
structure Externals where
  afterCcs : CoreState → OpaqueMessage → CoreState × Except Error (Option MessageType)
  handleHandshake : CoreState → CoreState × Option Error
  handleData : CoreState → Message → CoreState × Option Error

/-- One iteration of the `process_new_packets` loop body: `process_msg`
followed by the dispatch on its `MessageType` result. -/
def pnpStep (ext : Externals) (s : ConnInner) (msg : OpaqueMessage) :
    ConnInner × Option Error :=
  match process_msg ext.afterCcs s msg with
  | (s1, .error e) => (s1, some e)
  | (s1, .ok none) => (s1, none)
  | (s1, .ok (some .handshake)) =>
    let r := ext.handleHandshake s1.core
    ({ s1 with core := r.1 }, r.2)
  | (s1, .ok (some (.data m))) =>
    let r := ext.handleData s1.core m
    ({ s1 with core := r.1 }, r.2)

/-- The `process_new_packets` drain loop over the deframer's record FIFO:
pop each record in order, stopping at the first error; returns the final
inner state, the unconsumed records and the error, if any. -/
def pnpLoop (ext : Externals) (s : ConnInner) :
    List OpaqueMessage → ConnInner × List OpaqueMessage × Option Error
  | [] => (s, [], none)
  | msg :: rest =>
    match pnpStep ext s msg with
    | (s1, some e) => (s1, rest, some e)
    | (s1, none) => pnpLoop ext s1 rest

/-- `ConnectionCommon::current_io_state`. -/
def current_io_state (s : ConnState) : Nat × Nat × Bool :=
  ((s.inner.core.sendable_tls.map OutRecord.size).sum,
   chunksLen s.inner.core.received_plaintext,
   s.inner.core.peer_eof)

/-- `ConnectionCommon::process_new_packets`: return the cached error if
any, fail on a desynced deframer, otherwise drain the deframer's record
FIFO, caching and returning the first error. -/
def process_new_packets (ext : Externals) (s : ConnState) :
    ConnState × Except Error (Nat × Nat × Bool) :=
  match s.error with
  | some e => (s, .error e)
  | none =>
    if s.desynced then (s, .error .corruptMessage)
    else
      match pnpLoop ext s.inner s.frames with
      | (i1, rest, some e) =>
        ({ s with inner := i1, frames := rest, error := some e }, .error e)
      | (i1, rest, none) =>
        let s1 : ConnState := { s with inner := i1, frames := rest }
        (s1, .ok (current_io_state s1))

/-- `ConnectionCommon::wants_read`. -/
def wants_read (s : ConnState) : Bool :=
  s.inner.core.received_plaintext.isEmpty
    && !s.inner.core.peer_eof
    && (s.inner.core.traffic || s.inner.core.sendable_tls.isEmpty)

/-! ## The plaintext reader, from `src/conn.rs` -/

/-- The error kind `Reader::read` signals (`std::io::ErrorKind`). -/
inductive IoErrorKind where
  | wouldBlock
deriving DecidableEq, Repr

/-- The `Reader` handed out by `ConnectionCommon::reader`. -/
structure Reader where
  received_plaintext : List (List Nat)
  connection_at_eof : Bool
deriving DecidableEq, Repr

/-- `ConnectionCommon::reader`: at EOF only when a close_notify was seen
and the deframer holds no pending partial record. -/
def ConnState.reader (s : ConnState) : Reader :=
  { received_plaintext := s.inner.core.received_plaintext,
    connection_at_eof := s.inner.core.peer_eof && !s.deframer_has_pending }

/-- `Reader::read` (the `std::io::Read` implementation): copy plaintext
into a destination buffer of `bufLen` bytes; when nothing was copied into
a non-empty buffer and the connection is not at clean EOF, signal
would-block. -/
def Reader.read (r : Reader) (bufLen : Nat) : Reader × Except IoErrorKind Nat :=
  let c := ChunkVecBuffer.read bufLen r.received_plaintext
  let r1 : Reader := { r with received_plaintext := c.2 }
  if c.1 = 0 ∧ bufLen ≠ 0 ∧ r.connection_at_eof = false then
    (r1, .error .wouldBlock)
  else
    (r1, .ok c.1)

/-! ## Theorems -/

/-- Claim C1 (status: code_bug).  The suite table is supposed to carry, for
every enumerated suite, the hash named by the suite's identifier — but the
entry for TLS_ECDHE_ECDSA_WITH_CHACHA20_POLY1305_SHA256 carries HMAC-SHA384,
so `get_hash()` returns SHA-384 for it while the identifier (and the sibling
RSA ChaCha20 suite, which does carry HMAC-SHA256) name SHA-256.  Every other
table entry carries the hash its identifier names. -/
theorem tls12_ecdsa_chacha_suite_hash_mismatch :
    (SupportedCipherSuite.tls12 TLS_ECDHE_ECDSA_WITH_CHACHA20_POLY1305_SHA256).get_hash
        = HashAlgorithm.SHA384
    ∧ hashOfSuiteName CipherSuite.TLS_ECDHE_ECDSA_WITH_CHACHA20_POLY1305_SHA256
        = HashAlgorithm.SHA256
    ∧ (SupportedCipherSuite.tls12 TLS_ECDHE_RSA_WITH_CHACHA20_POLY1305_SHA256).get_hash
        = HashAlgorithm.SHA256
    ∧ (ALL_CIPHER_SUITES.all fun s =>
        (s.suite == CipherSuite.TLS_ECDHE_ECDSA_WITH_CHACHA20_POLY1305_SHA256)
          || (s.get_hash == hashOfSuiteName s.suite)) = true := by
  refine ⟨rfl, rfl, rfl, ?_⟩
  decide

/-- Helper: the client-preferring choice selects, for the first client id
any server entry matches, the first matching server entry. -/
lemma choose_client_char (cs : List CipherSuite) (ss : List SupportedCipherSuite) :
    choose_ciphersuite_preferring_client cs ss
      = (cs.find? fun c => ss.any fun x => c == x.suite).bind
          (fun c => ss.find? fun x => c == x.suite) := by
  induction cs with
  | nil => rfl
  | cons c rest ih =>
    unfold choose_ciphersuite_preferring_client
    cases h : ss.find? (fun x => c == x.suite) with
    | some sel =>
      have hsome : (ss.find? (fun x => c == x.suite)).isSome := by rw [h]; rfl
      have hany : (ss.any fun x => c == x.suite) = true :=
        List.any_eq_true.mpr (List.find?_isSome.mp hsome)
      simp [List.find?, hany, h]
    | none =>
      have hnone := List.find?_eq_none.mp h
      have hany : (ss.any fun x => c == x.suite) = false := by
        apply Bool.eq_false_iff.mpr
        intro hc
        obtain ⟨x, hx, hpx⟩ := List.any_eq_true.mp hc
        exact hnone x hx hpx
      simp [List.find?, hany, h, ih]

/-- Helper: the client-preferring choice is `none` exactly when no client
id matches any server entry. -/
lemma choose_client_none_iff (cs : List CipherSuite) (ss : List SupportedCipherSuite) :
    choose_ciphersuite_preferring_client cs ss = none
      ↔ ∀ c ∈ cs, ∀ x ∈ ss, x.suite ≠ c := by
  rw [choose_client_char]
  cases hfind : cs.find? (fun c => ss.any fun x => c == x.suite) with
  | none =>
    have hall := List.find?_eq_none.mp hfind
    simp only [hfind, Option.none_bind]
    constructor
    · intro _ c hc x hx hxc
      exact hall c hc (List.any_eq_true.mpr ⟨x, hx, by simp [hxc]⟩)
    · intro _
      trivial
  | some c0 =>
    have hc0mem : c0 ∈ cs := List.mem_of_find?_eq_some hfind
    have hp := List.find?_some hfind
    obtain ⟨x0, hx0, hpx0⟩ := List.any_eq_true.mp hp
    have hx0eq : x0.suite = c0 := (beq_iff_eq.mp hpx0).symm
    simp only [hfind, Option.some_bind]
    constructor
    · intro h
      exact absurd hpx0 (List.find?_eq_none.mp h x0 hx0)
    · intro h
      exact absurd hx0eq (h c0 hc0mem x0 hx0)

/-- Helper: the server-preferring choice is `none` exactly when no server
entry's id was offered by the client. -/
lemma choose_server_none_iff (cs : List CipherSuite) (ss : List SupportedCipherSuite) :
    choose_ciphersuite_preferring_server cs ss = none
      ↔ ∀ c ∈ cs, ∀ x ∈ ss, x.suite ≠ c := by
  unfold choose_ciphersuite_preferring_server
  rw [List.find?_eq_none]
  constructor
  · intro h c hc x hx hxc
    refine h x hx ?_
    rw [List.contains_eq_any_beq]
    exact List.any_eq_true.mpr ⟨c, hc, by simp [hxc]⟩
  · intro h x hx hcontra
    rw [List.contains_eq_any_beq] at hcontra
    obtain ⟨c, hc, hpc⟩ := List.any_eq_true.mp hcontra
    exact h c hc x hx (beq_iff_eq.mp hpc)

/-- Claim C6 (status: confirmed).  The client-preferring policy returns
(the server entry for) the first client-ordered id the server supports;
the server-preferring policy returns the first server-ordered entry the
client offered; both return `none` exactly when the client ids and the
server ids are disjoint. -/
theorem choose_ciphersuite_spec
    (client_suites : List CipherSuite) (server_suites : List SupportedCipherSuite) :
    choose_ciphersuite_preferring_client client_suites server_suites
      = (client_suites.find? fun c => server_suites.any fun x => c == x.suite).bind
          (fun c => server_suites.find? fun x => c == x.suite)
    ∧ choose_ciphersuite_preferring_server client_suites server_suites
      = server_suites.find? (fun x => client_suites.contains x.suite)
    ∧ (choose_ciphersuite_preferring_client client_suites server_suites = none
        ↔ ∀ c ∈ client_suites, ∀ x ∈ server_suites, x.suite ≠ c)
    ∧ (choose_ciphersuite_preferring_server client_suites server_suites = none
        ↔ ∀ c ∈ client_suites, ∀ x ∈ server_suites, x.suite ≠ c) :=
  ⟨choose_client_char client_suites server_suites, rfl,
   choose_client_none_iff client_suites server_suites,
   choose_server_none_iff client_suites server_suites⟩

/-- Witness for C6: a concrete disjoint pair and a concrete preference
instance, evaluated through `choose_ciphersuite_spec`. -/
theorem choose_ciphersuite_spec_witness :
    choose_ciphersuite_preferring_client
      [CipherSuite.TLS13_AES_128_GCM_SHA256]
      [.tls12 TLS_ECDHE_RSA_WITH_AES_128_GCM_SHA256] = none :=
  (choose_ciphersuite_spec [CipherSuite.TLS13_AES_128_GCM_SHA256]
      [.tls12 TLS_ECDHE_RSA_WITH_AES_128_GCM_SHA256]).2.2.1.mpr (by decide)

/-- Claim C2 counterexample (status: corrected).  The claimed rule
"validation returns an error when no enabled version is compatible with
the configured suites" fails on the code: with only a TLS 1.3 suite
configured and only TLS 1.2 enabled, no enabled version is compatible
with any configured suite, yet both `for_client` and `for_server`
succeed — the builder carries no version list and `validate` performs no
version-compatibility check at all. -/
theorem builder_validate_ignores_versions_counterexample :
    ConfigBuilderWithKxGroups.someCompatibleVersion
        ⟨[TLS13_AES_128_GCM_SHA256], [], [X25519]⟩ [TLS12] = false
    ∧ ConfigBuilderWithKxGroups.for_client ⟨[TLS13_AES_128_GCM_SHA256], [], [X25519]⟩
        = .ok ⟨[TLS13_AES_128_GCM_SHA256], [], [X25519]⟩
    ∧ ConfigBuilderWithKxGroups.for_server ⟨[TLS13_AES_128_GCM_SHA256], [], [X25519]⟩
        = .ok ⟨[TLS13_AES_128_GCM_SHA256], [], [X25519]⟩ := by
  refine ⟨?_, rfl, rfl⟩
  decide

/-- Claim C2 as amended (status: corrected).  `for_client`/`for_server`
return an error exactly when both cipher-suite lists are empty (an error
naming the suites) or the KX-group list is empty (an error naming the KX
groups); with at least one suite and at least one KX group they succeed,
passing the three lists through unchanged.  No version-compatibility
condition is checked (the builder holds no version list). -/
theorem builder_validate_amended (c : ConfigBuilderWithKxGroups) :
    (c.tls13_cipher_suites = [] → c.tls12_cipher_suites = [] →
      c.for_client = .error (.general "no usable cipher suites configured")
      ∧ c.for_server = .error (.general "no usable cipher suites configured"))
    ∧ (¬(c.tls13_cipher_suites = [] ∧ c.tls12_cipher_suites = []) → c.kx_groups = [] →
      c.for_client = .error (.general "no kx groups configured")
      ∧ c.for_server = .error (.general "no kx groups configured"))
    ∧ (¬(c.tls13_cipher_suites = [] ∧ c.tls12_cipher_suites = []) → c.kx_groups ≠ [] →
      c.for_client = .ok ⟨c.tls13_cipher_suites, c.tls12_cipher_suites, c.kx_groups⟩
      ∧ c.for_server = .ok ⟨c.tls13_cipher_suites, c.tls12_cipher_suites, c.kx_groups⟩) := by
  refine ⟨?_, ?_, ?_⟩
  · intro h13 h12
    simp [ConfigBuilderWithKxGroups.for_client, ConfigBuilderWithKxGroups.for_server,
          ConfigBuilderWithKxGroups.validate, h13, h12]
  · intro hsome hkx
    have hsuites : (c.tls13_cipher_suites.isEmpty && c.tls12_cipher_suites.isEmpty) = false := by
      rcases not_and_or.mp hsome with h | h <;>
        simp [List.isEmpty_iff, h, Bool.and_eq_false_iff]
    simp [ConfigBuilderWithKxGroups.for_client, ConfigBuilderWithKxGroups.for_server,
          ConfigBuilderWithKxGroups.validate, hsuites, hkx]
  · intro hsome hkx
    have hsuites : (c.tls13_cipher_suites.isEmpty && c.tls12_cipher_suites.isEmpty) = false := by
      rcases not_and_or.mp hsome with h | h <;>
        simp [List.isEmpty_iff, h, Bool.and_eq_false_iff]
    have hkxe : c.kx_groups.isEmpty = false := by
      simp [List.isEmpty_iff, hkx]
    simp [ConfigBuilderWithKxGroups.for_client, ConfigBuilderWithKxGroups.for_server,
          ConfigBuilderWithKxGroups.validate, hsuites, hkxe]

/-- Witness for C2: one concrete configuration for each of the three
validation outcomes, evaluated through `builder_validate_amended`. -/
theorem builder_validate_amended_witness :
    ConfigBuilderWithKxGroups.for_client ⟨[], [], [X25519]⟩
      = .error (.general "no usable cipher suites configured")
    ∧ ConfigBuilderWithKxGroups.for_client ⟨[TLS13_AES_256_GCM_SHA384], [], []⟩
      = .error (.general "no kx groups configured")
    ∧ ConfigBuilderWithKxGroups.for_server ⟨[TLS13_AES_256_GCM_SHA384], [], [X25519]⟩
      = .ok ⟨[TLS13_AES_256_GCM_SHA384], [], [X25519]⟩ :=
  ⟨((builder_validate_amended ⟨[], [], [X25519]⟩).1 rfl rfl).1,
   ((builder_validate_amended ⟨[TLS13_AES_256_GCM_SHA384], [], []⟩).2.1 (by simp) rfl).1,
   ((builder_validate_amended ⟨[TLS13_AES_256_GCM_SHA384], [], [X25519]⟩).2.2
      (by simp) (by simp)).2⟩

/-- A trivial instantiation of the collaborator operations, used to
evaluate the driver on concrete inputs. -/
def trivialExternals : Externals :=
  { afterCcs := fun core _ => (core, .ok none),
    handleHandshake := fun core => (core, none),
    handleData := fun core _ => (core, none) }

/-- A concrete pre-traffic TLS 1.3 core state. -/
def sampleCore : CoreState :=
  { is_client := true, negotiated_version := some .TLSv1_3, traffic := false,
    sent_fatal_alert := false, peer_eof := false, is_decrypting := false,
    received_plaintext := [], sendable_plaintext := [], sendable_tls := [] }

/-- A concrete ChangeCipherSpec record. -/
def ccsMsg : OpaqueMessage := { typ := .changeCipherSpec, version := .TLSv1_2, payload := [1] }

/-- Claim C3 counterexample (status: corrected).  A second pre-traffic
TLS 1.3 ChangeCipherSpec does fail with a `PeerMisbehaved` error, but its
reason string is "illegal middlebox CCS received", not the claimed
"illegal middlebox CCS". -/
theorem middlebox_ccs_reason_counterexample :
    process_msg trivialExternals.afterCcs ⟨true, sampleCore⟩ ccsMsg
      = (⟨true, sampleCore⟩, .error (.peerMisbehavedError "illegal middlebox CCS received"))
    ∧ Error.peerMisbehavedError "illegal middlebox CCS received"
        ≠ Error.peerMisbehavedError "illegal middlebox CCS" := by
  exact ⟨rfl, by decide⟩

/-- Claim C3 as amended (status: corrected).  When TLS 1.3 is negotiated
and the connection is not yet in traffic state, a ChangeCipherSpec record
given to `process_msg` while none has been received yet is dropped
silently — the call succeeds, delivers nothing, and changes only the
received-CCS flag; once that flag is set, every further such record makes
processing fail with `PeerMisbehaved("illegal middlebox CCS received")`.
This holds for every behaviour of the non-CCS processing path. -/
theorem middlebox_ccs_once
    (afterCcs : CoreState → OpaqueMessage → CoreState × Except Error (Option MessageType))
    (s : ConnInner) (msg : OpaqueMessage)
    (htyp : msg.typ = .changeCipherSpec) (htraffic : s.core.traffic = false)
    (h13 : s.core.is_tls13 = true) :
    (s.received_middlebox_ccs = false →
      process_msg afterCcs s msg = ({ s with received_middlebox_ccs := true }, .ok none))
    ∧ (s.received_middlebox_ccs = true →
      process_msg afterCcs s msg
        = (s, .error (.peerMisbehavedError "illegal middlebox CCS received"))) := by
  unfold process_msg
  rw [if_pos ⟨htyp, htraffic, h13⟩]
  constructor <;> intro h <;> simp [h]

/-- Witness for C3: the first concrete CCS is dropped with only the flag
set; the second fails, via `middlebox_ccs_once`. -/
theorem middlebox_ccs_once_witness :
    process_msg trivialExternals.afterCcs ⟨false, sampleCore⟩ ccsMsg
      = (⟨true, sampleCore⟩, .ok none)
    ∧ process_msg trivialExternals.afterCcs ⟨true, sampleCore⟩ ccsMsg
      = (⟨true, sampleCore⟩, .error (.peerMisbehavedError "illegal middlebox CCS received")) :=
  ⟨(middlebox_ccs_once trivialExternals.afterCcs ⟨false, sampleCore⟩ ccsMsg rfl rfl rfl).1 rfl,
   (middlebox_ccs_once trivialExternals.afterCcs ⟨true, sampleCore⟩ ccsMsg rfl rfl rfl).2 rfl⟩

/-- Claim C4 (status: confirmed).  Once `process_new_packets` returns an
error, the returned connection state yields the very same error on every
further call, consuming no deframed record and changing no state; in
particular a cached error is returned verbatim without any work.  This
holds for every behaviour of the collaborator operations. -/
theorem process_new_packets_error_is_terminal :
    (∀ (ext : Externals) (s : ConnState) (e : Error), s.error = some e →
      process_new_packets ext s = (s, .error e))
    ∧ (∀ (ext : Externals) (s s1 : ConnState) (e : Error),
        process_new_packets ext s = (s1, .error e) →
        process_new_packets ext s1 = (s1, .error e)) := by
  constructor
  · intro ext s e h
    simp [process_new_packets, h]
  · intro ext s s1 e h
    unfold process_new_packets at h
    cases herr : s.error with
    | some e0 =>
      rw [herr] at h
      simp only [Prod.mk.injEq, Except.error.injEq] at h
      obtain ⟨rfl, rfl⟩ := h
      simp [process_new_packets, herr]
    | none =>
      rw [herr] at h
      by_cases hd : s.desynced
      · rw [if_pos hd] at h
        simp only [Prod.mk.injEq, Except.error.injEq] at h
        obtain ⟨rfl, rfl⟩ := h
        simp [process_new_packets, herr, hd]
      · rw [if_neg hd] at h
        rcases hloop : pnpLoop ext s.inner s.frames with ⟨i1, rest, oerr⟩
        rw [hloop] at h
        cases oerr with
        | some e1 =>
          simp only [Prod.mk.injEq, Except.error.injEq] at h
          obtain ⟨rfl, rfl⟩ := h
          simp [process_new_packets]
        | none =>
          simp at h

/-- A concrete connection state with a cached error. -/
def erroredState : ConnState :=
  { inner := ⟨false, sampleCore⟩, frames := [ccsMsg], desynced := false,
    deframer_has_pending := false, error := some (.general "boom") }

/-- Witness for C4: a state carrying a cached error returns it verbatim,
by both halves of `process_new_packets_error_is_terminal`. -/
theorem process_new_packets_error_is_terminal_witness :
    process_new_packets trivialExternals erroredState
        = (erroredState, .error (.general "boom"))
    ∧ process_new_packets trivialExternals erroredState
        = (erroredState, .error (.general "boom")) :=
  ⟨process_new_packets_error_is_terminal.1 trivialExternals erroredState (.general "boom") rfl,
   process_new_packets_error_is_terminal.2 trivialExternals erroredState erroredState
     (.general "boom") rfl⟩

/-- Claim C5 (status: confirmed).  A received close_notify sets peer_eof
and succeeds (whatever its level — the close_notify rule takes precedence
over the level rules, in claim order and in code order); a TLS 1.3
warning other than user_canceled (and other than close_notify) queues a
fatal decode_error alert and fails with `AlertReceived`; outside TLS 1.3
a warning (other than close_notify) succeeds with no state change; a
fatal alert (other than close_notify) fails with `AlertReceived`. -/
theorem process_alert_spec (c : CoreState) (a : AlertMessagePayload) :
    (a.description = .closeNotify →
      (process_alert c a).2 = .ok () ∧ (process_alert c a).1.peer_eof = true)
    ∧ (a.level = .warning → a.description ≠ .closeNotify → a.description ≠ .userCanceled →
        c.is_tls13 = true →
        process_alert c a
          = (c.send_fatal_alert .decodeError, .error (.alertReceived a.description)))
    ∧ (a.level = .warning → a.description ≠ .closeNotify → c.is_tls13 = false →
        process_alert c a = (c, .ok ()))
    ∧ (a.level = .fatal → a.description ≠ .closeNotify →
        (process_alert c a).2 = .error (.alertReceived a.description)) := by
  refine ⟨?_, ?_, ?_, ?_⟩
  · intro hd
    cases hl : a.level <;> simp [process_alert, hl, hd]
  · intro hl hd hu h13
    simp [process_alert, hl, hd, hu, h13]
  · intro hl hd h13
    simp [process_alert, hl, hd, h13]
  · intro hl hd
    simp [process_alert, hl, hd]

/-- A concrete core state that negotiated TLS 1.2. -/
def sampleCore12 : CoreState := { sampleCore with negotiated_version := some .TLSv1_2 }

/-- Witness for C5: concrete alerts exercising all four clauses of
`process_alert_spec`. -/
theorem process_alert_spec_witness :
    ((process_alert sampleCore ⟨.warning, .closeNotify⟩).2 = .ok ()
      ∧ (process_alert sampleCore ⟨.warning, .closeNotify⟩).1.peer_eof = true)
    ∧ process_alert sampleCore ⟨.warning, .handshakeFailure⟩
        = (sampleCore.send_fatal_alert .decodeError,
           .error (.alertReceived .handshakeFailure))
    ∧ process_alert sampleCore12 ⟨.warning, .handshakeFailure⟩ = (sampleCore12, .ok ())
    ∧ (process_alert sampleCore ⟨.fatal, .handshakeFailure⟩).2
        = .error (.alertReceived .handshakeFailure) :=
  ⟨(process_alert_spec sampleCore ⟨.warning, .closeNotify⟩).1 rfl,
   (process_alert_spec sampleCore ⟨.warning, .handshakeFailure⟩).2.1 rfl
     (by decide) (by decide) rfl,
   (process_alert_spec sampleCore12 ⟨.warning, .handshakeFailure⟩).2.2.1 rfl
     (by decide) rfl,
   (process_alert_spec sampleCore ⟨.fatal, .handshakeFailure⟩).2.2.2 rfl (by decide)⟩

/-- Claim C7 (status: confirmed).  `ConnectionSecrets::new` derives the
master secret by PRF over the premaster secret with label
"master secret" seeded with client_random ‖ server_random; `new_ems`
uses label "extended master secret" over the transcript hash;
`make_key_block` runs the PRF on the master secret with label
"key expansion" seeded with server_random ‖ client_random, demanding
2·(AEAD key length + fixed_iv_len) + explicit_nonce_len output bytes —
so that is the key block's length whenever the PRF honours its requested
output length.  Parametric in the PRF implementation, which lives outside
the analysed sources. -/
theorem tls12_secret_derivation_spec (prf : PrfFn) (randoms : ConnectionRandoms)
    (suite : Tls12CipherSuite) (pms hs_hash : List Nat) :
    (ConnectionSecrets.new prf randoms suite pms).master_secret
      = prf suite.hmac_algorithm pms "master secret" (randoms.client ++ randoms.server) 48
    ∧ (ConnectionSecrets.new_ems prf randoms hs_hash suite pms).master_secret
      = prf suite.hmac_algorithm pms "extended master secret" hs_hash 48
    ∧ (∀ s : ConnectionSecrets, s.make_key_block prf
        = prf s.suite.hmac_algorithm s.master_secret "key expansion"
            (s.randoms.server ++ s.randoms.client)
            ((s.suite.common.aead_algorithm.key_len + s.suite.fixed_iv_len) * 2
              + s.suite.explicit_nonce_len))
    ∧ ((∀ (h : HmacAlgorithm) (sec : List Nat) (lab : String) (seed : List Nat) (n : Nat),
          (prf h sec lab seed n).length = n) →
        ∀ s : ConnectionSecrets, (s.make_key_block prf).length
          = (s.suite.common.aead_algorithm.key_len + s.suite.fixed_iv_len) * 2
              + s.suite.explicit_nonce_len) :=
  ⟨rfl, rfl, fun _ => rfl,
   fun hp s => hp s.suite.hmac_algorithm s.master_secret "key expansion"
     (s.randoms.server ++ s.randoms.client) s.key_block_len⟩

/-- A stand-in PRF that returns the requested number of zero bytes. -/
def zeroPrf : PrfFn := fun _ _ _ _ n => List.replicate n 0

/-- Witness for C7: the key block of the TLS 1.2 RSA ChaCha20 suite is
(32 + 12) · 2 + 0 = 88 bytes, via `tls12_secret_derivation_spec`. -/
theorem tls12_secret_derivation_spec_witness :
    ((ConnectionSecrets.new zeroPrf ⟨true, List.replicate 32 1, List.replicate 32 2⟩
        TLS_ECDHE_RSA_WITH_CHACHA20_POLY1305_SHA256 [3]).make_key_block zeroPrf).length = 88 :=
  (tls12_secret_derivation_spec zeroPrf ⟨true, List.replicate 32 1, List.replicate 32 2⟩
      TLS_ECDHE_RSA_WITH_CHACHA20_POLY1305_SHA256 [3] []).2.2.2
    (fun _ _ _ _ n => List.length_replicate n 0) _

/-- Claim C8 (status: confirmed).  On a server-side `ConnectionRandoms`,
`set_tls12_downgrade_marker` overwrites exactly the last 8 of the 32
server-random bytes with the sentinel 44 4F 57 4E 47 52 44 01, leaving
the client random and the first 24 server-random bytes unchanged; on a
client-side one, `has_tls12_downgrade_marker` answers `true` exactly when
the last 8 server-random bytes equal that sentinel.  The asymmetric
assertions are modelled as `none` results on the opposite side. -/
theorem downgrade_marker_spec (r : ConnectionRandoms) (hlen : r.server.length = 32) :
    (r.we_are_client = false →
      r.set_tls12_downgrade_marker
          = some { r with server := r.server.take 24 ++ TLS12_DOWNGRADE_SENTINEL }
        ∧ (r.server.take 24 ++ TLS12_DOWNGRADE_SENTINEL).take 24 = r.server.take 24
        ∧ (r.server.take 24 ++ TLS12_DOWNGRADE_SENTINEL).drop 24 = TLS12_DOWNGRADE_SENTINEL
        ∧ (r.server.take 24 ++ TLS12_DOWNGRADE_SENTINEL).length = 32)
    ∧ (r.we_are_client = true →
      (r.has_tls12_downgrade_marker = some true
        ↔ r.server.drop 24 = TLS12_DOWNGRADE_SENTINEL))
    ∧ (r.we_are_client = true → r.set_tls12_downgrade_marker = none)
    ∧ (r.we_are_client = false → r.has_tls12_downgrade_marker = none) := by
  have h24 : (r.server.take 24).length = 24 := by
    rw [List.length_take, hlen]
    decide
  refine ⟨?_, ?_, ?_, ?_⟩
  · intro h
    refine ⟨by simp [ConnectionRandoms.set_tls12_downgrade_marker, h], ?_, ?_, ?_⟩
    · rw [List.take_left' h24]
    · rw [List.drop_left' h24]
    · rw [List.length_append, h24]
      rfl
  · intro h
    simp [ConnectionRandoms.has_tls12_downgrade_marker, h]
  · intro h
    simp [ConnectionRandoms.set_tls12_downgrade_marker, h]
  · intro h
    simp [ConnectionRandoms.has_tls12_downgrade_marker, h]

/-- Witness for C8: concrete randoms on both sides, evaluated through
`downgrade_marker_spec`. -/
theorem downgrade_marker_spec_witness :
    ConnectionRandoms.has_tls12_downgrade_marker
        ⟨true, List.replicate 32 0, List.replicate 24 0 ++ TLS12_DOWNGRADE_SENTINEL⟩
      = some true
    ∧ ConnectionRandoms.set_tls12_downgrade_marker
        ⟨false, List.replicate 32 0, List.replicate 32 0⟩
      = some ⟨false, List.replicate 32 0,
              (List.replicate 32 0).take 24 ++ TLS12_DOWNGRADE_SENTINEL⟩ := by
  constructor
  · exact ((downgrade_marker_spec
        ⟨true, List.replicate 32 0, List.replicate 24 0 ++ TLS12_DOWNGRADE_SENTINEL⟩
        (by decide)).2.1 rfl).mpr (by decide)
  · exact ((downgrade_marker_spec
        ⟨false, List.replicate 32 0, List.replicate 32 0⟩ (by decide)).1 rfl).1

/-- Claim C9 (status: confirmed).  `wants_read()` answers `true` exactly
when the received-plaintext queue is empty, no close_notify has been
seen, and either the connection is in traffic state or the outgoing
record queue is empty. -/
theorem wants_read_spec (s : ConnState) :
    wants_read s = true
      ↔ (s.inner.core.received_plaintext = []
          ∧ s.inner.core.peer_eof = false
          ∧ (s.inner.core.traffic = true ∨ s.inner.core.sendable_tls = [])) := by
  simp [wants_read, List.isEmpty_iff, Bool.and_eq_true, Bool.or_eq_true, and_assoc]

/-- Helper: `ChunkVecBuffer.read` copies exactly
min(buffer size, buffered bytes) bytes. -/
lemma chunkRead_fst (bufLen : Nat) (chunks : List (List Nat)) :
    (ChunkVecBuffer.read bufLen chunks).1 = min bufLen (chunksLen chunks) := by
  induction chunks generalizing bufLen with
  | nil => simp [ChunkVecBuffer.read, chunksLen]
  | cons c rest ih =>
    simp only [ChunkVecBuffer.read, chunksLen, List.map_cons, List.sum_cons]
    by_cases h0 : bufLen = 0
    · simp [h0]
    · rw [if_neg h0]
      by_cases hc : c.length ≤ bufLen
      · rw [if_pos hc]
        simp only [ih]
        have hrest : chunksLen rest = (rest.map List.length).sum := rfl
        omega
      · rw [if_neg hc]
        simp only []
        omega

/-- A concrete quiescent connection state. -/
def sampleConn : ConnState :=
  { inner := ⟨false, sampleCore⟩, frames := [], desynced := false,
    deframer_has_pending := false, error := none }

/-- Claim C10 (status: confirmed).  `reader().read` with a zero-length
destination buffer returns `Ok(0)`; it signals would-block only when the
destination buffer is non-empty, no plaintext bytes are buffered, and
the connection is not at clean EOF, where clean EOF means a close_notify
was received and the deframer holds no pending partial record. -/
theorem reader_read_spec (s : ConnState) (bufLen : Nat) :
    (bufLen = 0 → (Reader.read s.reader bufLen).2 = .ok 0)
    ∧ ((Reader.read s.reader bufLen).2 = .error .wouldBlock →
        bufLen ≠ 0
        ∧ chunksLen s.inner.core.received_plaintext = 0
        ∧ ¬(s.inner.core.peer_eof = true ∧ s.deframer_has_pending = false)) := by
  constructor
  · intro h0
    subst h0
    have hz : (ChunkVecBuffer.read 0 s.reader.received_plaintext).1 = 0 := by
      rw [chunkRead_fst]
      simp
    simp [Reader.read, hz]
  · intro h
    simp only [Reader.read] at h
    by_cases hcond : ((ChunkVecBuffer.read bufLen s.reader.received_plaintext).1 = 0
        ∧ bufLen ≠ 0 ∧ s.reader.connection_at_eof = false)
    · obtain ⟨hz, hb, he⟩ := hcond
      refine ⟨hb, ?_, ?_⟩
      · rw [chunkRead_fst] at hz
        have : s.reader.received_plaintext = s.inner.core.received_plaintext := rfl
        rw [this] at hz
        omega
      · intro hpq
        obtain ⟨hp, hq⟩ := hpq
        simp [ConnState.reader, hp, hq] at he
    · rw [if_neg hcond] at h
      simp at h

/-- Witness for C10: on a concrete quiescent connection, a zero-length
read returns `Ok(0)`, and a would-block result implies an empty plaintext
buffer, via `reader_read_spec`. -/
theorem reader_read_spec_witness :
    (Reader.read sampleConn.reader 0).2 = .ok 0
    ∧ (4 ≠ 0
        ∧ chunksLen sampleConn.inner.core.received_plaintext = 0
        ∧ ¬(sampleConn.inner.core.peer_eof = true
            ∧ sampleConn.deframer_has_pending = false)) :=
  ⟨(reader_read_spec sampleConn 0).1 rfl,
   (reader_read_spec sampleConn 4).2 rfl⟩
